import Mathlib

/-!
Shallow embedding of the generator orchestrator of this repository
(`core/generator.py`) and proofs about it.

Python values are modelled by the inductive type `Val`; Python dicts with
string keys by association lists (`Dict`) with Python's update semantics
(replacing a key keeps its position, new keys are appended).  Python
exceptions are modelled by `Except String`/`Except PyError` results: an
`Except.error` value models an exception propagating out of the modelled
code.  The external collaborators (Prompt renderer, API client, output
processor), as well as the small data classes that are not part of the
sources (`GeneratorOutput`, `Parameter`, `ModelType`,
`compose_model_kwargs`, the `Component` training flag and `state_dict`),
are modelled from the spec as abstract structures with function-valued
fields.

An output processor is a Python callable: calling it on an (aliased,
mutable) argument object both returns a result (or raises) and may mutate
the argument object in place.  This in-place effect is modelled by the
`mutate` field of `Processor`, applied to the object the processor was
called on; the returned value (or the raised exception) is modelled by the
`result` field.
-/

set_option autoImplicit false

namespace LightRAG

/-- Model of the Python values flowing through the generator: strings,
integers, Python None, and opaque foreign objects.  A foreign object
carries a flag saying whether `copy.deepcopy` succeeds on it (Python
objects holding locks, generators or open files are not deep-copyable). -/
inductive Val where
  | vStr (s : String)
  | vInt (n : Int)
  | vNone
  | vObj (id : Nat) (copyable : Bool)
  deriving DecidableEq, Repr

/-- Model of Python `str(v)`, total and best-effort on foreign objects. -/
def pyStr : Val → String
  | .vStr s => s
  | .vInt n => toString n
  | .vNone => "None"
  | .vObj i _ => "<object " ++ toString i ++ ">"

/-- Model of `copy.deepcopy`: returns an independent copy with the same
value; raises on non-deep-copyable foreign objects. -/
def deepcopy : Val → Except String Val
  | .vObj i false => .error ("cannot deepcopy object " ++ toString i)
  | v => .ok v

/-- Drop leading whitespace characters. -/
def dropLeadingWs : List Char → List Char
  | [] => []
  | c :: cs => if c.isWhitespace then dropLeadingWs cs else c :: cs

/-- Model of Python `str.strip()`: remove leading and trailing whitespace
characters. -/
def pyStrip (s : String) : String :=
  ⟨(dropLeadingWs (dropLeadingWs s.data).reverse).reverse⟩

/-- A Python dict with string keys, as an association list in insertion
order. -/
def Dict : Type := List (String × Val)

instance : DecidableEq Dict := by
  unfold Dict
  infer_instance

/-- Model of Python `d[k]` lookup / `k in d` support: value of the first
binding of the key, if any. -/
def dictGet : Dict → String → Option Val
  | [], _ => none
  | (k, v) :: rest, key => if k = key then some v else dictGet rest key

/-- Model of Python `d[k] = v`: replace the value at an existing key in
place, otherwise append the new binding. -/
def dictSet : Dict → String → Val → Dict
  | [], k, v => [(k, v)]
  | (k', v') :: rest, k, v =>
      if k' = k then (k, v) :: rest else (k', v') :: dictSet rest k v

/-- Model of Python `d.update(u)`: set every binding of `u` in `d`, in
order. -/
def dictUpdate (d : Dict) : Dict → Dict
  | [] => d
  | (k, v) :: rest => dictUpdate (dictSet d k v) rest

/-- Model of Python `k in d`. -/
def dictHasKey (d : Dict) (k : String) : Bool :=
  (dictGet d k).isSome

/-- Modelled from the spec: `ModelType` of `core/data_classes.py` is
missing from the sources; only the LLM tag is used by the generator. -/
inductive ModelType where
  | UNDEFINED
  | LLM
  deriving DecidableEq, Repr

/-- Modelled from the spec: `GeneratorOutput` of `core/data_classes.py` is
missing from the sources.  Per the spec it carries the parsed-but-
unprocessed backend response, the post-processed payload (default unset),
and an optional error message. -/
structure GeneratorOutput where
  raw_response : Val
  data : Option Val := none
  error_message : Option String := none
  deriving DecidableEq, Repr

/-- Modelled from the spec: `Parameter` of `core/parameter.py` is missing
from the sources; a named mutable value holder with no behavior beyond
storage. -/
structure Parameter where
  data : Val
  deriving DecidableEq, Repr

/-- The Python exceptions raised by `Generator.__init__`: explicit
`ValueError`s and the `AttributeError` raised by attribute access on
`None`. -/
inductive PyError where
  | valueError (msg : String)
  | attributeError (msg : String)
  deriving DecidableEq, Repr

/-- Modelled from the spec: the Prompt renderer of `core/prompt_builder.py`
is missing from the sources and is treated as an external collaborator
exposing rendering (which may raise, e.g. on a missing required variable)
and the list of declared template variables.  A `Prompt` value stands for
the object `Prompt(template=template, preset_prompt_kwargs=preset)` built
by the generator's constructor. -/
structure Prompt where
  template : String
  preset_prompt_kwargs : Option Dict
  /-- Model of `get_prompt_variables()`. -/
  vars : List String
  /-- Model of `Prompt.call(**kwargs)`; `Except.error` models a raised
  rendering error. -/
  render : Dict → Except String String

/-- Modelled from the spec: the Model Client collaborator
(`core/api_client.py` is missing from the sources).  `parse_chat_completion`
may raise; the call operations are modelled as deterministic functions of
the api kwargs and the model type. -/
structure APIClient where
  convert_inputs_to_api_kwargs : String → Dict → ModelType → Dict
  call : Dict → ModelType → Val
  acall : Dict → ModelType → Val
  parse_chat_completion : Val → Except String Val

/-- Modelled from the spec: an output processor is a callable component.
Calling it on an object returns `result` of the object's value (or raises,
modelled by `Except.error`), and as a side effect leaves the argument
object holding `mutate` of its value. -/
structure Processor where
  mutate : Val → Val
  result : Val → Except String Val

/-- The immutable configuration of a `Generator`, as set up by
`Generator.__init__` (`core/generator.py`, lines 33-84). -/
structure Generator where
  model_kwargs : Dict
  model_client : APIClient
  system_prompt : Prompt
  preset_prompt_kwargs : Option Dict
  /-- The validated trainable parameter names (`self._trainable_params`). -/
  _trainable_params : List String
  output_processors : Option Processor

/-- The mutable state surrounding a generator at call time: the data held
by the owned `Parameter` attributes, the `Component` training flag
(modelled from the spec, `core/component.py` is missing from the sources),
and the contents of the single shared mutable dict that Python created
once for the default value of `call`'s `prompt_kwargs` parameter. -/
structure GenState where
  params : List (String × Parameter)
  training : Bool
  callDefault : Dict
  deriving DecidableEq

/-- Lookup of an owned `Parameter` attribute by name (`getattr(self, param)`). -/
def getParam : List (String × Parameter) → String → Option Parameter
  | [], _ => none
  | (k, p) :: rest, key => if k = key then some p else getParam rest key

/-- The data of the named `Parameter` (`getattr(self, param).data`); the
names used by the generator are exactly those whose parameters were
created at construction, so the default is never reached on states
produced by construction. -/
def paramData (ps : List (String × Parameter)) (name : String) : Val :=
  match getParam ps name with
  | some p => p.data
  | none => Val.vNone

/-- Modelled from the spec: `compose_model_kwargs` of `core/functional.py`
is missing from the sources; per the spec it produces the defaults with
every override applied on top, mutating neither input. -/
def compose_model_kwargs (default overrides : Dict) : Dict :=
  dictUpdate default overrides

/-- Modelled from the spec: `Component.state_dict` (`core/component.py` is
missing from the sources) iterated at call time yields one name per owned
trainable `Parameter`, i.e. the recorded trainable names. -/
def Generator.state_dict (g : Generator) : List String :=
  g._trainable_params

/-- The loop of `Generator.__init__` over `trainable_params`
(`core/generator.py`, lines 73-81): validate each name against the
prompt variables, then read its preset default via
`self.preset_prompt_kwargs.get(param, None)` — which raises
`AttributeError` when `preset_prompt_kwargs` is `None` — and create a
`Parameter` holding it. -/
def initTrainable (preset : Option Dict) (prompt_variables : List String) :
    List String → Except PyError (List (String × Parameter))
  | [] => .ok []
  | param :: rest =>
      if param ∈ prompt_variables then
        match preset with
        | none =>
            .error (.attributeError "NoneType object has no attribute get")
        | some d =>
            let default_value := (dictGet d param).getD Val.vNone
            match initTrainable preset prompt_variables rest with
            | .error e => .error e
            | .ok ps => .ok ((param, { data := default_value }) :: ps)
      else
        .error (.valueError
          ("trainable_params: " ++ param ++ " not found in the prompt_variables"))

/-- Model of `Generator.__init__` (`core/generator.py`, lines 33-84).  The
`system_prompt` argument stands for the `Prompt` object built from the
`template` and `preset_prompt_kwargs` arguments.  On success it returns
the immutable configuration together with the freshly created `Parameter`
attributes (one per validated trainable name, in order). -/
def Generator.init (model_client : APIClient) (model_kwargs : Dict)
    (system_prompt : Prompt) (preset_prompt_kwargs : Option Dict)
    (trainable_params : List String) (output_processors : Option Processor) :
    Except PyError (Generator × List (String × Parameter)) :=
  if dictHasKey model_kwargs "model" = false then
    .error (.valueError "Generator requires a 'model' to be passed in the model_kwargs")
  else
    let prompt_variables := system_prompt.vars
    match initTrainable preset_prompt_kwargs prompt_variables trainable_params with
    | .error e => .error e
    | .ok ps =>
        .ok ({ model_kwargs := model_kwargs
               model_client := model_client
               system_prompt := system_prompt
               preset_prompt_kwargs := preset_prompt_kwargs
               _trainable_params := trainable_params
               output_processors := output_processors }, ps)

/-- Model of `Generator.update_default_model_kwargs`
(`core/generator.py`, lines 96-106). -/
def Generator.update_default_model_kwargs (g : Generator) (model_kwargs : Dict) : Dict :=
  compose_model_kwargs g.model_kwargs model_kwargs

/-- Model of `Generator._post_call` (`core/generator.py`, lines 115-131).
The parse failure is caught and turned into an error output; the
`deepcopy` of the parsed response sits outside any `try`, so its failure
propagates (`Except.error`); a processor failure is caught, with `data`
then set to the copy as the processor left it (the processor received the
deep copy, never the object stored in `raw_response`). -/
def Generator._post_call (g : Generator) (completion : Val) :
    Except String GeneratorOutput :=
  match g.model_client.parse_chat_completion completion with
  | .error e =>
      .ok { raw_response := Val.vStr (pyStr completion)
            data := none
            error_message := some e }
  | .ok response =>
      match deepcopy response with
      | .error e => .error e
      | .ok copy =>
          match g.output_processors with
          | none =>
              .ok { raw_response := response
                    data := some copy
                    error_message := none }
          | some proc =>
              match proc.result copy with
              | .ok processed =>
                  .ok { raw_response := response
                        data := some processed
                        error_message := none }
              | .error e =>
                  .ok { raw_response := response
                        data := some (proc.mutate copy)
                        error_message := some e }

/-- Model of `Generator._pre_call` (`core/generator.py`, lines 133-147):
render the system prompt (a raised rendering error propagates), strip it,
compose the model kwargs, and ask the client for the api kwargs. -/
def Generator._pre_call (g : Generator) (prompt_kwargs model_kwargs : Dict) :
    Except String Dict :=
  match g.system_prompt.render prompt_kwargs with
  | .error e => .error e
  | .ok s =>
      let system_prompt_str := pyStrip s
      let composed_model_kwargs := g.update_default_model_kwargs model_kwargs
      .ok (g.model_client.convert_inputs_to_api_kwargs system_prompt_str
            composed_model_kwargs ModelType.LLM)

/-- The prompt kwargs `Generator.call` actually renders with
(`core/generator.py`, lines 156-162): the passed dict — or, when the
argument is omitted, the shared mutable default dict — updated in place
with the trainable parameter values when in training mode. -/
def Generator.effectivePromptKwargs (g : Generator) (st : GenState)
    (prompt_kwargs : Option Dict) : Dict :=
  let pk := match prompt_kwargs with
    | none => st.callDefault
    | some d => d
  if st.training then
    dictUpdate pk (g.state_dict.map fun param => (param, paramData st.params param))
  else
    pk

/-- Model of `Generator.call` (`core/generator.py`, lines 149-174).
`prompt_kwargs = none` models omitting the argument, in which case the
shared mutable default dict (held in `GenState.callDefault`) is used, and
any in-place `update` of it persists in the returned state.  The returned
`Dict` is the final contents of the dict object that was passed to
rendering (visible to the caller, since `update` mutates it in place);
the `Except` result is the returned `GeneratorOutput`, or the raised
exception. -/
def Generator.call (g : Generator) (st : GenState)
    (prompt_kwargs : Option Dict) (model_kwargs : Dict) :
    GenState × Dict × Except String GeneratorOutput :=
  let pkFinal := g.effectivePromptKwargs st prompt_kwargs
  let st' := match prompt_kwargs with
    | none => { st with callDefault := pkFinal }
    | some _ => st
  let result := match g._pre_call pkFinal model_kwargs with
    | .error e => Except.error e
    | .ok api_kwargs =>
        g._post_call (g.model_client.call api_kwargs ModelType.LLM)
  (st', pkFinal, result)

/-- Model of `Generator.acall` (`core/generator.py`, lines 176-189).  It
performs no training-mode injection and never mutates anything; omitting
`prompt_kwargs` uses `acall`'s own default dict, which is never written
and therefore always empty. -/
def Generator.acall (g : Generator) (st : GenState)
    (prompt_kwargs : Option Dict) (model_kwargs : Dict) :
    GenState × Except String GeneratorOutput :=
  let pk := match prompt_kwargs with
    | none => ([] : Dict)
    | some d => d
  let result := match g._pre_call pk model_kwargs with
    | .error e => Except.error e
    | .ok api_kwargs =>
        g._post_call (g.model_client.acall api_kwargs ModelType.LLM)
  (st, result)

/-! ### Concrete collaborator instances used to evaluate the model

The prompt variables below are the six variables of
`DEFAULT_LIGHTRAG_SYSTEM_PROMPT` as listed in the constructor docstring of
`core/generator.py` (lines 46-53). -/

/-- The declared variables of the default system prompt template. -/
def sampleVars : List String :=
  ["task_desc_str", "tools_str", "example_str", "chat_history_str",
   "context_str", "steps_str"]

/-- A concrete total renderer over the default variables: it interpolates
`task_desc_str` and `context_str` and never raises. -/
def samplePrompt : Prompt :=
  { template := "default template"
    preset_prompt_kwargs := none
    vars := sampleVars
    render := fun d =>
      .ok ("task: " ++ pyStr ((dictGet d "task_desc_str").getD Val.vNone)
        ++ " context: " ++ pyStr ((dictGet d "context_str").getD Val.vNone)) }

/-- A concrete renderer that raises when the required variable
`context_str` is missing. -/
def strictPrompt : Prompt :=
  { template := "strict template"
    preset_prompt_kwargs := none
    vars := sampleVars
    render := fun d =>
      match dictGet d "context_str" with
      | none => .error "undefined variable context_str"
      | some v => .ok ("context: " ++ pyStr v) }

/-- A deterministic client that carries the rendered input through the api
kwargs, echoes it back as the completion, and parses by returning the
completion unchanged.  Its async call agrees with its sync call. -/
def echoClient : APIClient :=
  { convert_inputs_to_api_kwargs := fun input mks _ => dictSet mks "input" (Val.vStr input)
    call := fun api _ => (dictGet api "input").getD Val.vNone
    acall := fun api _ => (dictGet api "input").getD Val.vNone
    parse_chat_completion := fun c => .ok c }

/-- A client whose parser raises on every completion. -/
def failParseClient : APIClient :=
  { echoClient with parse_chat_completion := fun _ => .error "malformed completion" }

/-- A client whose parser succeeds but returns a foreign object on which
`deepcopy` raises. -/
def badCopyClient : APIClient :=
  { echoClient with parse_chat_completion := fun _ => .ok (Val.vObj 7 false) }

/-- A client whose parser always returns the parsed response string R. -/
def constRClient : APIClient :=
  { echoClient with parse_chat_completion := fun _ => .ok (Val.vStr "R") }

/-- An output processor that mutates its argument object in place and then
raises. -/
def mutProc : Processor :=
  { mutate := fun _ => Val.vStr "mutated"
    result := fun _ => .error "processor boom" }

/-- An output processor that appends a marker and never raises nor
mutates. -/
def okProc : Processor :=
  { mutate := fun v => v
    result := fun v => .ok (Val.vStr ("processed " ++ pyStr v)) }

/-- Model kwargs with the required model entry. -/
def mkModel : Dict := [("model", Val.vStr "gpt-3.5-turbo")]

/-- A generator over the echo client and total renderer with one trainable
parameter, `context_str`. -/
def gEcho : Generator :=
  { model_kwargs := mkModel
    model_client := echoClient
    system_prompt := samplePrompt
    preset_prompt_kwargs := none
    _trainable_params := ["context_str"]
    output_processors := none }

/-- The echo generator with the always-failing parser. -/
def gFailParse : Generator :=
  { gEcho with model_client := failParseClient }

/-- The echo generator whose parser returns a non-deep-copyable object. -/
def gBadCopy : Generator :=
  { gEcho with model_client := badCopyClient }

/-- A generator whose parser returns `"R"` and whose output processor
mutates its argument and raises. -/
def gMut : Generator :=
  { gEcho with model_client := constRClient, output_processors := some mutProc }

/-- The echo generator over the strict renderer. -/
def gStrict : Generator :=
  { gEcho with system_prompt := strictPrompt }

/-- A call state with the trainable parameter `context_str` trained to
`"trained"`, in training mode, with a pristine shared default dict. -/
def stTrained : GenState :=
  { params := [("context_str", { data := Val.vStr "trained" })]
    training := true
    callDefault := [] }

/-- The same state outside training mode. -/
def stEval : GenState :=
  { stTrained with training := false }

/-- The raw_response of a call outcome, when the call returned normally. -/
def rawOf : Except String GeneratorOutput → Option Val
  | .ok out => some out.raw_response
  | .error _ => none

/-- Closed-form side condition for the amended totality of `_post_call`:
deep-copying whatever the parser returns succeeds. -/
def deepcopySafe (g : Generator) (completion : Val) : Bool :=
  match g.model_client.parse_chat_completion completion with
  | .ok r => (deepcopy r).isOk
  | .error _ => true

/-! ### Dictionary lemmas -/

theorem dictGet_dictSet (d : Dict) (k k' : String) (v : Val) :
    dictGet (dictSet d k v) k' = if k = k' then some v else dictGet d k' := by
  induction d with
  | nil =>
      by_cases h : k = k' <;> simp [dictSet, dictGet, h]
  | cons hd tl ih =>
      obtain ⟨a, b⟩ := hd
      by_cases h1 : a = k
      · subst h1
        by_cases h2 : a = k' <;> simp [dictSet, dictGet, h2]
      · have hset : dictSet ((a, b) :: tl) k v = (a, b) :: dictSet tl k v := by
          simp [dictSet, h1]
        rw [hset]
        by_cases h3 : a = k'
        · subst h3
          have h2 : ¬(k = a) := fun hh => h1 hh.symm
          simp [dictGet, if_neg h2]
        · by_cases h2 : k = k'
          · subst h2
            simp [dictGet, h3, ih]
          · simp [dictGet, h3, h2, ih]

theorem dictGet_dictUpdate_map (d : Dict) (l : List String) (f : String → Val)
    (k : String) :
    dictGet (dictUpdate d (l.map fun p => (p, f p))) k =
      if k ∈ l then some (f k) else dictGet d k := by
  induction l generalizing d with
  | nil => simp [dictUpdate]
  | cons hd tl ih =>
      simp only [List.map_cons, dictUpdate]
      rw [ih]
      by_cases h1 : k ∈ tl
      · simp [h1]
      · by_cases h2 : hd = k
        · subst h2
          simp [h1, dictGet_dictSet]
        · have h2' : ¬(k = hd) := fun hh => h2 hh.symm
          simp [h1, h2, h2', dictGet_dictSet]

theorem deepcopy_eq_ok_of_isOk (r : Val) (h : (deepcopy r).isOk = true) :
    deepcopy r = .ok r := by
  cases r with
  | vObj i c => cases c <;> simp_all [deepcopy, Except.isOk, Except.toBool]
  | vStr s => rfl
  | vInt n => rfl
  | vNone => rfl

/-! ### C1 — post-call processing never lets an exception escape -/

/-- C1 counterexample: `_post_call` does let an exception cross its
boundary.  When the parser succeeds but returns a non-deep-copyable
response, the `deepcopy` on line 124 of `core/generator.py` sits outside
every `try` block, so the exception propagates instead of being converted
into `error_message`. -/
theorem postCall_deepcopy_exception_escapes :
    gBadCopy._post_call (Val.vStr "x") = Except.error "cannot deepcopy object 7" :=
  rfl

/-- C1 (amended): for every raw completion on which deep-copying the
parsed response does not itself raise, `_post_call` returns a
`GeneratorOutput` and converts parser and output-processor failures into
its `error_message` field; only a deep-copy failure escapes as a raised
exception. -/
theorem postCall_total_of_deepcopySafe (g : Generator) (c : Val)
    (h : deepcopySafe g c = true) : (g._post_call c).isOk = true := by
  unfold deepcopySafe at h
  unfold Generator._post_call
  cases hp : g.model_client.parse_chat_completion c with
  | error e => rfl
  | ok r =>
      rw [hp] at h
      dsimp only at h ⊢
      cases hd : deepcopy r with
      | error e =>
          rw [hd] at h
          simp [Except.isOk, Except.toBool] at h
      | ok copy =>
          dsimp only
          cases g.output_processors with
          | none => rfl
          | some proc =>
              dsimp only
              cases proc.result copy <;> rfl

/-- Witness for the amended C1 at a concrete generator and completion. -/
theorem postCall_total_of_deepcopySafe_witness :
    deepcopySafe gEcho (Val.vStr "x") = true ∧
    (gEcho._post_call (Val.vStr "x")).isOk = true :=
  ⟨rfl, postCall_total_of_deepcopySafe gEcho (Val.vStr "x") rfl⟩

/-! ### C4 — parse failure is recovered into an error output -/

/-- C4: for every raw completion on which the Model Client's parser
raises, `call` returns normally with a `GeneratorOutput` whose
raw_response is the string form of the raw completion, whose
error_message is set to the failure description, and whose data is
unset. -/
theorem call_parse_failure_returns_error_output (g : Generator)
    (st : GenState) (pk : Option Dict) (mks api : Dict) (e : String)
    (h1 : g._pre_call (g.effectivePromptKwargs st pk) mks = .ok api)
    (h2 : g.model_client.parse_chat_completion
            (g.model_client.call api ModelType.LLM) = .error e) :
    (g.call st pk mks).2.2 =
      .ok { raw_response :=
              Val.vStr (pyStr (g.model_client.call api ModelType.LLM))
            data := none
            error_message := some e } := by
  have hres : (g.call st pk mks).2.2 =
      g._post_call (g.model_client.call api ModelType.LLM) := by
    simp only [Generator.call]
    rw [h1]
  rw [hres]
  unfold Generator._post_call
  rw [h2]

/-- Witness for C4 at a concrete generator whose parser always raises. -/
theorem call_parse_failure_witness :
    gFailParse._pre_call (gFailParse.effectivePromptKwargs stEval (some [])) [] =
      .ok [("model", Val.vStr "gpt-3.5-turbo"),
           ("input", Val.vStr "task: None context: None")] ∧
    gFailParse.model_client.parse_chat_completion
      (Val.vStr "task: None context: None") = .error "malformed completion" ∧
    (gFailParse.call stEval (some []) []).2.2 =
      .ok { raw_response := Val.vStr "task: None context: None"
            data := none
            error_message := some "malformed completion" } :=
  ⟨rfl, rfl,
    call_parse_failure_returns_error_output gFailParse stEval (some []) []
      [("model", Val.vStr "gpt-3.5-turbo"),
       ("input", Val.vStr "task: None context: None")]
      "malformed completion" rfl rfl⟩

/-! ### C5 — processor failure keeps the best-effort data -/

/-- C5 counterexample: the claim says that on a processor failure `data`
is set to the unprocessed deep copy of the parsed response; but the
processor may mutate the copy in place before raising, and then `data`
holds the mutated copy, not the parsed response `R`. -/
theorem postCall_processor_mutation_in_data :
    gMut._post_call (Val.vStr "c") =
      .ok { raw_response := Val.vStr "R"
            data := some (Val.vStr "mutated")
            error_message := some "processor boom" } ∧
    Val.vStr "mutated" ≠ Val.vStr "R" :=
  ⟨rfl, by decide⟩

/-- C5 (amended): for every successfully parsed response `R` on which the
configured output processor raises, the returned `GeneratorOutput` has
raw_response equal to `R`, a set error_message, and data set to the deep
copy of `R` as the processor left it (the unprocessed copy whenever the
processor does not mutate its argument) rather than left unset, and the
call does not raise. -/
theorem postCall_processor_failure_best_effort (g : Generator)
    (c r copy : Val) (e : String) (proc : Processor)
    (hproc : g.output_processors = some proc)
    (hp : g.model_client.parse_chat_completion c = .ok r)
    (hd : deepcopy r = .ok copy)
    (he : proc.result copy = .error e) :
    g._post_call c =
      .ok { raw_response := r
            data := some (proc.mutate copy)
            error_message := some e } := by
  unfold Generator._post_call
  rw [hp]
  dsimp only
  rw [hd]
  dsimp only
  rw [hproc]
  dsimp only
  rw [he]

/-- Witness for the amended C5 at the concrete mutating processor. -/
theorem postCall_processor_failure_witness :
    gMut.output_processors = some mutProc ∧
    gMut.model_client.parse_chat_completion (Val.vStr "c") =
      .ok (Val.vStr "R") ∧
    deepcopy (Val.vStr "R") = .ok (Val.vStr "R") ∧
    mutProc.result (Val.vStr "R") = .error "processor boom" ∧
    gMut._post_call (Val.vStr "c") =
      .ok { raw_response := Val.vStr "R"
            data := some (Val.vStr "mutated")
            error_message := some "processor boom" } :=
  ⟨rfl, rfl, rfl, rfl,
    postCall_processor_failure_best_effort gMut (Val.vStr "c") (Val.vStr "R")
      (Val.vStr "R") "processor boom" mutProc rfl rfl rfl rfl⟩

/-! ### C8 — the stored raw_response is protected by the deep copy -/

/-- C8: for every successfully parsed (and deep-copyable) response and
every configured output processor — including one that mutates its
argument in place — the processor is applied to the deep copy, so the
stored raw_response of the returned `GeneratorOutput` equals the original
parsed response. -/
theorem postCall_raw_response_unaffected (g : Generator) (c r : Val)
    (hp : g.model_client.parse_chat_completion c = .ok r)
    (hd : (deepcopy r).isOk = true) :
    rawOf (g._post_call c) = some r := by
  have hdd := deepcopy_eq_ok_of_isOk r hd
  unfold Generator._post_call
  rw [hp]
  dsimp only
  rw [hdd]
  dsimp only
  cases g.output_processors with
  | none => rfl
  | some proc =>
      dsimp only
      cases proc.result r <;> rfl

/-- Witness for C8 at the concrete mutating processor: raw_response is
still the parsed response `R`. -/
theorem postCall_raw_response_witness :
    gMut.model_client.parse_chat_completion (Val.vStr "c") =
      .ok (Val.vStr "R") ∧
    (deepcopy (Val.vStr "R")).isOk = true ∧
    rawOf (gMut._post_call (Val.vStr "c")) = some (Val.vStr "R") :=
  ⟨rfl, rfl,
    postCall_raw_response_unaffected gMut (Val.vStr "c") (Val.vStr "R") rfl rfl⟩

/-! ### C2 — acall versus call -/

/-- C2 counterexample: with a deterministic client (the echo client, whose
async call is the same function as its sync call), in training mode,
`call` injects the trained value of `context_str` before rendering but
`acall` does not (its body has no training-mode block), so the two entry
points return different `GeneratorOutput`s on the same arguments. -/
theorem acall_differs_from_call_in_training :
    (gEcho.call stTrained (some []) []).2.2 =
      .ok { raw_response := Val.vStr "task: None context: trained"
            data := some (Val.vStr "task: None context: trained")
            error_message := none } ∧
    (gEcho.acall stTrained (some []) []).2 =
      .ok { raw_response := Val.vStr "task: None context: None"
            data := some (Val.vStr "task: None context: None")
            error_message := none } ∧
    Val.vStr "task: None context: trained" ≠ Val.vStr "task: None context: None" :=
  ⟨rfl, rfl, by decide⟩

/-- C2 (amended): outside training mode, with a deterministic client and
an unpolluted shared default mapping, `acall` prepares the same prompt
kwargs and returns the same `GeneratorOutput` as `call`, while `call`
leaves the state unchanged; in training mode `acall` omits the
trainable-parameter injection that `call` performs. -/
theorem acall_eq_call_outside_training (g : Generator) (st : GenState)
    (pk : Option Dict) (mks : Dict)
    (ht : st.training = false)
    (hd : st.callDefault = [])
    (hc : ∀ api mt, g.model_client.acall api mt = g.model_client.call api mt) :
    (g.call st pk mks).2.1 = pk.getD [] ∧
    (g.acall st pk mks).2 = (g.call st pk mks).2.2 ∧
    (g.call st pk mks).1 = st := by
  cases pk with
  | none =>
      refine ⟨?_, ?_, ?_⟩
      · show g.effectivePromptKwargs st none = _
        unfold Generator.effectivePromptKwargs
        rw [ht, hd]
        rfl
      · show (match g._pre_call ([] : Dict) mks with
              | Except.error e => Except.error e
              | Except.ok api_kwargs =>
                  g._post_call (g.model_client.acall api_kwargs ModelType.LLM)) =
            (match g._pre_call (g.effectivePromptKwargs st none) mks with
              | Except.error e => Except.error e
              | Except.ok api_kwargs =>
                  g._post_call (g.model_client.call api_kwargs ModelType.LLM))
        have hpk : g.effectivePromptKwargs st none = ([] : Dict) := by
          unfold Generator.effectivePromptKwargs
          rw [ht, hd]
          rfl
        rw [hpk]
        cases g._pre_call ([] : Dict) mks with
        | error e => rfl
        | ok api => dsimp only; rw [hc]
      · show ({ st with callDefault := g.effectivePromptKwargs st none } : GenState) = st
        have hpk : g.effectivePromptKwargs st none = ([] : Dict) := by
          unfold Generator.effectivePromptKwargs
          rw [ht, hd]
          rfl
        rw [hpk, ← hd]
  | some d =>
      refine ⟨?_, ?_, ?_⟩
      · show g.effectivePromptKwargs st (some d) = _
        unfold Generator.effectivePromptKwargs
        rw [ht]
        rfl
      · show (match g._pre_call d mks with
              | Except.error e => Except.error e
              | Except.ok api_kwargs =>
                  g._post_call (g.model_client.acall api_kwargs ModelType.LLM)) =
            (match g._pre_call (g.effectivePromptKwargs st (some d)) mks with
              | Except.error e => Except.error e
              | Except.ok api_kwargs =>
                  g._post_call (g.model_client.call api_kwargs ModelType.LLM))
        have hpk : g.effectivePromptKwargs st (some d) = d := by
          unfold Generator.effectivePromptKwargs
          rw [ht]
          rfl
        rw [hpk]
        cases g._pre_call d mks with
        | error e => rfl
        | ok api => dsimp only; rw [hc]
      · rfl

/-- Witness for the amended C2 at the echo client outside training mode. -/
theorem acall_eq_call_outside_training_witness :
    stEval.training = false ∧ stEval.callDefault = [] ∧
    (gEcho.acall stEval (some [("context_str", Val.vStr "X")]) []).2 =
      (gEcho.call stEval (some [("context_str", Val.vStr "X")]) []).2.2 :=
  ⟨rfl, rfl,
    (acall_eq_call_outside_training gEcho stEval
      (some [("context_str", Val.vStr "X")]) [] rfl rfl (fun _ _ => rfl)).2.1⟩

/-! ### C3 — construction with trainable names but no preset crashes -/

/-- C3: the claim says construction succeeds whenever every trainable name
is a declared template variable, even with no `preset_prompt_kwargs`; but
with `preset_prompt_kwargs = None` and the declared variable
`task_desc_str` as a trainable name, `self.preset_prompt_kwargs.get(param, None)`
on line 79 of `core/generator.py` is attribute access on `None` and raises
`AttributeError` — not a configuration error, and not success. -/
theorem init_none_preset_raises_attribute_error :
    ("task_desc_str" ∈ samplePrompt.vars) ∧
    Generator.init echoClient mkModel samplePrompt none ["task_desc_str"] none =
      .error (PyError.attributeError "NoneType object has no attribute get") :=
  ⟨by decide, rfl⟩

/-- In training mode the effective prompt kwargs are the supplied (or
default) dict updated with the trainable parameter values. -/
theorem effectivePromptKwargs_training (g : Generator) (st : GenState)
    (pk : Option Dict) (ht : st.training = true) :
    g.effectivePromptKwargs st pk =
      dictUpdate (match pk with | none => st.callDefault | some d => d)
        (g.state_dict.map fun param => (param, paramData st.params param)) := by
  unfold Generator.effectivePromptKwargs
  rw [ht]
  rfl

/-! ### C6 — training-mode injection overrides caller values -/

/-- C6: in training mode, the value held by each trainable Parameter is
injected into prompt_kwargs before rendering and overrides any
caller-supplied value for the same name: in the dict that rendering
receives, every trainable name maps to its Parameter's data, whatever the
caller passed. -/
theorem call_training_value_overrides_caller (g : Generator) (st : GenState)
    (pk mks : Dict) (p : String)
    (ht : st.training = true) (hp : p ∈ g.state_dict) :
    dictGet (g.call st (some pk) mks).2.1 p = some (paramData st.params p) := by
  have h : (g.call st (some pk) mks).2.1 = g.effectivePromptKwargs st (some pk) := rfl
  rw [h, effectivePromptKwargs_training g st (some pk) ht]
  dsimp only
  rw [dictGet_dictUpdate_map]
  simp [hp]

/-- Witness for C6: the caller passes `context_str := "caller"` explicitly,
yet the rendered-with dict holds the trained value. -/
theorem call_training_value_overrides_caller_witness :
    stTrained.training = true ∧ "context_str" ∈ gEcho.state_dict ∧
    dictGet (gEcho.call stTrained (some [("context_str", Val.vStr "caller")]) []).2.1
      "context_str" = some (Val.vStr "trained") :=
  ⟨rfl, by decide,
    call_training_value_overrides_caller gEcho stTrained
      [("context_str", Val.vStr "caller")] [] "context_str" rfl (by decide)⟩

/-! ### C7 — rendering failures propagate as raised errors -/

/-- C7: when the template renderer raises on the prompt kwargs it is given
(e.g. a missing required variable), `call` and `acall` propagate that
failure to the caller as a raised error (`Except.error`), not as a
`GeneratorOutput` with error_message set. -/
theorem render_failure_propagates (g : Generator) (st : GenState)
    (pk : Option Dict) (mks : Dict) (e1 e2 : String) :
    (g.system_prompt.render (g.effectivePromptKwargs st pk) = .error e1 →
      (g.call st pk mks).2.2 = .error e1) ∧
    (g.system_prompt.render (pk.getD []) = .error e2 →
      (g.acall st pk mks).2 = .error e2) := by
  constructor
  · intro h
    have hpre : g._pre_call (g.effectivePromptKwargs st pk) mks = .error e1 := by
      unfold Generator._pre_call
      rw [h]
    show (match g._pre_call (g.effectivePromptKwargs st pk) mks with
          | Except.error e => Except.error e
          | Except.ok api_kwargs =>
              g._post_call (g.model_client.call api_kwargs ModelType.LLM)) = _
    rw [hpre]
  · intro h
    cases pk with
    | none =>
        have hpre : g._pre_call ([] : Dict) mks = .error e2 := by
          unfold Generator._pre_call
          rw [show g.system_prompt.render ([] : Dict) = .error e2 from h]
        show (match g._pre_call ([] : Dict) mks with
              | Except.error e => Except.error e
              | Except.ok api_kwargs =>
                  g._post_call (g.model_client.acall api_kwargs ModelType.LLM)) = _
        rw [hpre]
    | some d =>
        have hpre : g._pre_call d mks = .error e2 := by
          unfold Generator._pre_call
          rw [show g.system_prompt.render d = .error e2 from h]
        show (match g._pre_call d mks with
              | Except.error e => Except.error e
              | Except.ok api_kwargs =>
                  g._post_call (g.model_client.acall api_kwargs ModelType.LLM)) = _
        rw [hpre]

/-- Witness for C7 at the strict renderer with the required variable
missing: both entry points raise. -/
theorem render_failure_propagates_witness :
    gStrict.system_prompt.render (gStrict.effectivePromptKwargs stEval (some [])) =
      .error "undefined variable context_str" ∧
    (gStrict.call stEval (some []) []).2.2 = .error "undefined variable context_str" ∧
    (gStrict.acall stEval (some []) []).2 = .error "undefined variable context_str" :=
  ⟨rfl,
    (render_failure_propagates gStrict stEval (some []) []
      "undefined variable context_str" "undefined variable context_str").1 rfl,
    (render_failure_propagates gStrict stEval (some []) []
      "undefined variable context_str" "undefined variable context_str").2 rfl⟩

/-! ### C9 — calls never write Parameter state -/

/-- C9: `call` and `acall` (in training mode or not) only read the owned
trainable Parameters and never write them: the parameter map of the state
is unchanged by either entry point. -/
theorem call_acall_preserve_parameters (g : Generator) (st : GenState)
    (pk : Option Dict) (mks : Dict) :
    (g.call st pk mks).1.params = st.params ∧
    (g.acall st pk mks).1.params = st.params := by
  constructor
  · cases pk <;> rfl
  · rfl

/-! ### C10 — the shared mutable default prompt_kwargs leaks state -/

/-- C10: in training mode `call` update()s the trainable values into the
caller-supplied prompt_kwargs dict in place; when prompt_kwargs is
omitted, the dict written to is the one shared mutable default dict, so
the injected keys persist there and are observed by a subsequent call
that also omits prompt_kwargs — here even by one made after training mode
is switched off. -/
theorem call_default_dict_pollution (g : Generator) (st : GenState)
    (pk mks mks2 : Dict) (p : String)
    (ht : st.training = true) (hp : p ∈ g.state_dict) :
    (g.call st (some pk) mks).2.1 =
      dictUpdate pk (g.state_dict.map fun q => (q, paramData st.params q)) ∧
    dictGet (g.call st none mks).1.callDefault p = some (paramData st.params p) ∧
    dictGet ((g.call { (g.call st none mks).1 with training := false } none mks2).2.1) p =
      some (paramData st.params p) := by
  have hdef : dictGet (g.effectivePromptKwargs st none) p =
      some (paramData st.params p) := by
    rw [effectivePromptKwargs_training g st none ht]
    dsimp only
    rw [dictGet_dictUpdate_map]
    simp [hp]
  refine ⟨?_, ?_, ?_⟩
  · show g.effectivePromptKwargs st (some pk) = _
    rw [effectivePromptKwargs_training g st (some pk) ht]
  · exact hdef
  · exact hdef

/-- Witness for C10: after one training-mode call omitting prompt_kwargs,
a later non-training call that also omits prompt_kwargs renders with the
leaked trained value. -/
theorem call_default_dict_pollution_witness :
    stTrained.training = true ∧ "context_str" ∈ gEcho.state_dict ∧
    dictGet ((gEcho.call { (gEcho.call stTrained none []).1 with training := false }
        none []).2.1) "context_str" = some (Val.vStr "trained") :=
  ⟨rfl, by decide,
    (call_default_dict_pollution gEcho stTrained [] [] [] "context_str" rfl
      (by decide)).2.2⟩

end LightRAG
